import Mathlib

/-!
Shallow embedding of the offline-first synchronization core of the
journaling application: score normalization, the diary sync service with
its bulk-upsert / per-record-fallback policy, the identity resolver, the
single-flight sync pass of the useAutoSync hook, and the admin
backup-restore routine over the local key-value store.

Stateful TypeScript code is embedded as explicit state passing; remote
calls are recorded in effect lists and their outcomes supplied by oracle
parameters; JavaScript truthiness on strings is modelled by an explicit
coercion; undefined / null / number field values are a three-way sum.
-/

/-- A JavaScript-like numeric field value: undefined, null, or a number. -/
inductive JsNum where
  | undef : JsNum
  | null : JsNum
  | num : Int → JsNum
deriving DecidableEq, Repr

/-- JavaScript truthiness of an optional string: null/undefined and the
empty string are falsy; a falsy value is collapsed to none. -/
def truthy : Option String → Option String
  | none => none
  | some s => if s = "" then none else some s

/-- JavaScript a || b on optional strings: b when a is falsy. -/
def jsOrStr (a b : Option String) : Option String :=
  match truthy a with
  | some s => some s
  | none => b

/-- A diary record as it sits in local storage: duck-typed, with both the
snake_case and camelCase score spellings possibly present, absent or null
(source: the record shapes read by useAutoSync syncData and
diaryService.syncDiaries). An absent string field is none; the id field
uses the empty string for a falsy id. -/
structure LocalEntry where
  id : String
  date : String
  emotion : String
  event : String
  realization : String
  self_esteem_score : JsNum
  selfEsteemScore : JsNum
  worthlessness_score : JsNum
  worthlessnessScore : JsNum
  created_at : Option String
  counselor_memo : Option String
  is_visible_to_user : Bool
  counselor_name : Option String
  assigned_counselor : Option String
  urgency_level : Option String
deriving DecidableEq, Repr

/-- The field-name merge applied to a score pair by both normalizations:
start from the snake_case value; if it is undefined and the camelCase
value is not undefined, take the camelCase value
(source: supabase.ts lines 105-115 and useAutoSync lines 175-185). -/
def mergedScore (snake camel : JsNum) : JsNum :=
  if snake = JsNum.undef ∧ camel ≠ JsNum.undef then camel else snake

/-- The merged score after defaulting: undefined or null becomes 50
(source: supabase.ts lines 117-124 and useAutoSync lines 187-194;
the subsequent Number(...) coercion is the identity on numbers). -/
def normalizeScore (snake camel : JsNum) : Int :=
  match mergedScore snake camel with
  | JsNum.undef => 50
  | JsNum.null => 50
  | JsNum.num v => v

/-- The per-entry normalization of the useAutoSync sync pass
(unnamed/part_000 lines 170-214): merged and defaulted scores are written
back under both field spellings as numbers, created_at is defaulted to
the current time, and the remaining counselor fields are passed through
with JavaScript || null defaulting. -/
def normalizeEntry (now : String) (e : LocalEntry) : LocalEntry :=
  { id := e.id
    date := e.date
    emotion := e.emotion
    event := e.event
    realization := e.realization
    self_esteem_score := JsNum.num (normalizeScore e.self_esteem_score e.selfEsteemScore)
    selfEsteemScore := JsNum.num (normalizeScore e.self_esteem_score e.selfEsteemScore)
    worthlessness_score := JsNum.num (normalizeScore e.worthlessness_score e.worthlessnessScore)
    worthlessnessScore := JsNum.num (normalizeScore e.worthlessness_score e.worthlessnessScore)
    created_at := some ((truthy e.created_at).getD now)
    counselor_memo := truthy e.counselor_memo
    is_visible_to_user := e.is_visible_to_user
    counselor_name := truthy e.counselor_name
    assigned_counselor := truthy e.assigned_counselor
    urgency_level := truthy e.urgency_level }

/-- The environment-supplied configuration: endpoint and credential
presence and the local-only flag (supabase.ts lines 4-7). -/
structure Config where
  hasUrl : Bool
  hasKey : Bool
  isLocalMode : Bool
deriving DecidableEq, Repr

/-- Whether the supabase client handle is non-null
(supabase.ts line 10: created only when not local mode and both the URL
and the anon key are present). -/
def Config.hasSupabase (c : Config) : Bool :=
  (!c.isLocalMode) && c.hasUrl && c.hasKey

/-- A diary row as formatted for the remote diary relation by
diaryService.syncDiaries (supabase.ts lines 126-143): snake_case scores
only, the caller's user id attached. -/
structure FormattedDiary where
  id : String
  user_id : String
  date : String
  emotion : String
  event : String
  realization : String
  self_esteem_score : Int
  worthlessness_score : Int
  created_at : String
  counselor_memo : Option String
  is_visible_to_user : Bool
  counselor_name : Option String
  assigned_counselor : Option String
  urgency_level : Option String
deriving DecidableEq, Repr

/-- The per-record formatting of diaryService.syncDiaries
(supabase.ts lines 101-144): merge and default the scores, default a
falsy id to Date.now().toString() (the nowMs parameter), default a falsy
created_at to the current time, and apply || null / || false defaulting
to the counselor fields. -/
def formatDiary (userId now nowMs : String) (d : LocalEntry) : FormattedDiary :=
  { id := if d.id = "" then nowMs else d.id
    user_id := userId
    date := d.date
    emotion := d.emotion
    event := d.event
    realization := d.realization
    self_esteem_score := normalizeScore d.self_esteem_score d.selfEsteemScore
    worthlessness_score := normalizeScore d.worthlessness_score d.worthlessnessScore
    created_at := (truthy d.created_at).getD now
    counselor_memo := truthy d.counselor_memo
    is_visible_to_user := d.is_visible_to_user
    counselor_name := truthy d.counselor_name
    assigned_counselor := truthy d.assigned_counselor
    urgency_level := truthy d.urgency_level }

/-- The result object of diaryService.syncDiaries: success flag, optional
error string, optional data.message string of the partial-success path. -/
structure SyncResult where
  success : Bool
  error : Option String
  message : Option String
deriving DecidableEq, Repr

/-- Outcomes of the remote upsert calls, supplied as an oracle: the bulk
upsert fails with the given message when bulkError is some, and each
individual fallback upsert succeeds exactly when singleOk holds of the
formatted row. -/
structure RemoteOracle where
  bulkError : Option String
  singleOk : FormattedDiary → Bool

/-- A remote call issued by diaryService.syncDiaries. -/
inductive DiaryCall where
  | bulkUpsert : List FormattedDiary → DiaryCall
  | singleUpsert : FormattedDiary → DiaryCall
deriving DecidableEq, Repr

/-- The human-readable partial-success message of supabase.ts line 192. -/
def countMsg (k n : Nat) : String :=
  toString k ++ "/" ++ toString n ++ " 件のデータを同期しました"

/-- diaryService.syncDiaries (supabase.ts lines 92-209): guard on a null
client handle and on local mode / empty user id / the sentinel user id;
format the batch; attempt one bulk upsert; on bulk failure retry every
record individually in order, counting successes, and report partial
success when at least one record went through. Returns the result object
and the list of remote calls issued. -/
def syncDiaries (cfg : Config) (oracle : RemoteOracle) (now nowMs userId : String)
    (diaries : List LocalEntry) : SyncResult × List DiaryCall :=
  if !cfg.hasSupabase then
    ({ success := false, error := some "Supabase接続なし", message := none }, [])
  else if cfg.isLocalMode ∨ userId = "" ∨ userId = "local-user-id" then
    ({ success := false, error := some "ローカルモードまたは無効なユーザーID", message := none }, [])
  else
    let formatted := diaries.map (formatDiary userId now nowMs)
    match oracle.bulkError with
    | none =>
      ({ success := true, error := none, message := none },
       [DiaryCall.bulkUpsert formatted])
    | some msg =>
      let calls := DiaryCall.bulkUpsert formatted :: formatted.map DiaryCall.singleUpsert
      let successCount := (formatted.filter oracle.singleOk).length
      if 0 < successCount then
        ({ success := true, error := none,
           message := some (countMsg successCount formatted.length) }, calls)
      else
        ({ success := false, error := some ("同期エラー: " ++ msg), message := none }, calls)

/-- A row of the remote users relation (id, line_username; the migration
puts a UNIQUE constraint on line_username). -/
structure UserRow where
  id : String
  line_username : String
deriving DecidableEq, Repr

/-- The remote side seen by the user service: the current users table,
fault injections for the search and insert round trips (searchFault is a
lookup failure whose code is not PGRST116), and the id the backend would
assign to a newly inserted row. -/
structure UserEnv where
  table : List UserRow
  searchFault : Bool
  insertFault : Bool
  freshId : String
deriving DecidableEq, Repr

/-- A remote call issued by the user service. -/
inductive UserCall where
  | search : String → UserCall
  | insert : String → UserCall
deriving DecidableEq, Repr

/-- The filtered single() lookup by username: first row whose
line_username matches, none when no row matches (PGRST116). -/
def findUser (uname : String) : List UserRow → Option UserRow
  | [] => none
  | r :: rest => if r.line_username = uname then some r else findUser uname rest

/-- The insert arm of createOrGetUser (supabase.ts lines 43-54). -/
def insertUser (env : UserEnv) (uname : String) :
    Option UserRow × UserEnv × List UserCall :=
  if env.insertFault then
    (none, env, [UserCall.search uname, UserCall.insert uname])
  else
    let row : UserRow := { id := env.freshId, line_username := uname }
    (some row, { env with table := env.table ++ [row] },
     [UserCall.search uname, UserCall.insert uname])

/-- userService.createOrGetUser (supabase.ts lines 17-59): null when the
client handle is null; the local-mode sentinel branch as written in the
source; otherwise search by username, short-circuit on a found row,
return null on a lookup error whose code is not PGRST116, and insert a
new row when no row was found. -/
def createOrGetUser (cfg : Config) (env : UserEnv) (uname : String) :
    Option UserRow × UserEnv × List UserCall :=
  if !cfg.hasSupabase then (none, env, [])
  else if cfg.isLocalMode then
    (some { id := "local-user-id", line_username := uname }, env, [])
  else if env.searchFault then (none, env, [UserCall.search uname])
  else
    match findUser uname env.table with
    | some row => (some row, env, [UserCall.search uname])
    | none => insertUser env uname

/-- userService.getUserId (supabase.ts lines 62-86): null when the client
handle is null; the local-mode sentinel branch as written in the source;
otherwise a single() lookup returning data.id || null, null on any
error including not-found. -/
def getUserId (cfg : Config) (env : UserEnv) (uname : String) :
    Option String × List UserCall :=
  if !cfg.hasSupabase then (none, [])
  else if cfg.isLocalMode then (some "local-user-id", [])
  else if env.searchFault then (none, [UserCall.search uname])
  else
    match findUser uname env.table with
    | some row => (truthy (some row.id), [UserCall.search uname])
    | none => (none, [UserCall.search uname])

/-- The device-auth user returned by getCurrentUser. -/
structure DeviceUser where
  lineUsername : String
deriving DecidableEq, Repr

/-- The React state of the useAutoSync hook touched by a sync pass. -/
structure SyncState where
  isSyncing : Bool
  lastSyncTime : Option String
  error : Option String
  currentUser : Option UserRow
deriving DecidableEq, Repr

/-- The local storage keys a sync pass touches: the diary collection
under journalEntries (none when the key is absent or falsy, some the
parsed array otherwise), the last_sync_time key, and the line-username
key. -/
structure LocalStore where
  journalEntries : Option (List LocalEntry)
  last_sync_time : Option String
  lineUsernameKey : Option String
deriving DecidableEq, Repr

/-- The ambient inputs of one sync pass: the device-auth user, the
user-service remote environment, the diary upsert oracle, and the two
clock readings (ISO string and Date.now().toString()). -/
structure SyncEnv where
  deviceUser : Option DeviceUser
  userEnv : UserEnv
  diaryOracle : RemoteOracle
  now : String
  nowMs : String

/-- An observable step of a sync pass: local storage reads and writes and
the two kinds of remote call. -/
inductive SyncEffect where
  | readStorage : String → SyncEffect
  | writeStorage : String → String → SyncEffect
  | createUserCall : String → SyncEffect
  | diariesCall : String → List LocalEntry → SyncEffect
deriving DecidableEq, Repr

/-- Whether an effect is a remote call. -/
def isRemoteEffect : SyncEffect → Bool
  | SyncEffect.createUserCall _ => true
  | SyncEffect.diariesCall _ _ => true
  | _ => false

/-- The tail of a sync pass once a user id is in hand
(unnamed/part_000 lines 158-239): read journalEntries; when absent,
record the new last-sync timestamp and succeed; otherwise normalize every
entry, call diaryService.syncDiaries, and on success record the new
timestamp, on failure record the thrown error message. Every branch
resets the isSyncing flag, mirroring the finally block. -/
def afterUser (cfg : Config) (env : SyncEnv) (s0 : SyncState) (store : LocalStore)
    (userId : String) (eff : List SyncEffect) :
    Bool × SyncState × LocalStore × List SyncEffect :=
  let eff2 := eff ++ [SyncEffect.readStorage "journalEntries"]
  match store.journalEntries with
  | none =>
    (true, { s0 with isSyncing := false, lastSyncTime := some env.now },
     { store with last_sync_time := some env.now },
     eff2 ++ [SyncEffect.writeStorage "last_sync_time" env.now])
  | some rawEntries =>
    let entries := rawEntries.map (normalizeEntry env.now)
    let res := (syncDiaries cfg env.diaryOracle env.now env.nowMs userId entries).1
    let eff3 := eff2 ++ [SyncEffect.diariesCall userId entries]
    if res.success then
      (true, { s0 with isSyncing := false, lastSyncTime := some env.now },
       { store with last_sync_time := some env.now },
       eff3 ++ [SyncEffect.writeStorage "last_sync_time" env.now])
    else
      (false,
       { s0 with
         isSyncing := false
         error := some (res.error.getD "日記の同期に失敗しました") },
       store, eff3)

/-- The try block of the sync pass (unnamed/part_000 lines 119-239):
resolve the username (device auth, falling back to the line-username
storage key only when the device value is falsy), resolve the user id
from hook state or by calling createOrGetUser, then hand over to the
per-entry tail. The isLocalMode branches are kept as written in the
source even though the guards make them unreachable. -/
def syncBody (cfg : Config) (env : SyncEnv) (s0 : SyncState) (store : LocalStore) :
    Bool × SyncState × LocalStore × List SyncEffect :=
  let deviceName := env.deviceUser.map DeviceUser.lineUsername
  let nameEffects : List SyncEffect :=
    if truthy deviceName = none then [SyncEffect.readStorage "line-username"] else []
  match truthy (jsOrStr deviceName store.lineUsernameKey) with
  | none =>
    if cfg.isLocalMode then
      afterUser cfg env s0 store "local-user-id" nameEffects
    else
      (false, { s0 with isSyncing := false }, store, nameEffects)
  | some uname =>
    let userId0 :=
      match s0.currentUser with
      | some u => if u.id = "" then "local-user-id" else u.id
      | none => "local-user-id"
    if userId0 = "local-user-id" then
      if cfg.isLocalMode then
        afterUser cfg env s0 store "local-user-id" nameEffects
      else
        match createOrGetUser cfg env.userEnv uname with
        | (none, _, _) =>
          (false, { s0 with isSyncing := false }, store,
           nameEffects ++ [SyncEffect.createUserCall uname])
        | (some u, _, _) =>
          if u.id = "" then
            (false, { s0 with isSyncing := false }, store,
             nameEffects ++ [SyncEffect.createUserCall uname])
          else
            afterUser cfg env { s0 with currentUser := some u } store u.id
              (nameEffects ++ [SyncEffect.createUserCall uname])
    else
      afterUser cfg env s0 store userId0 nameEffects

/-- The syncData function of the useAutoSync hook
(unnamed/part_000 lines 100-240): three initial guards — null client
handle, local mode, already syncing — each returning false with no state
change and no effects; past the guards the pass sets the isSyncing flag,
clears the error, and runs the body. -/
def syncData (cfg : Config) (env : SyncEnv) (s : SyncState) (store : LocalStore) :
    Bool × SyncState × LocalStore × List SyncEffect :=
  if !cfg.hasSupabase then (false, s, store, [])
  else if cfg.isLocalMode then (false, s, store, [])
  else if s.isSyncing then (false, s, store, [])
  else syncBody cfg env { s with isSyncing := true, error := none } store

/-- triggerManualSync (unnamed/part_000 lines 243-245) simply awaits
syncData. -/
def triggerManualSync (cfg : Config) (env : SyncEnv) (s : SyncState)
    (store : LocalStore) : Bool × SyncState × LocalStore × List SyncEffect :=
  syncData cfg env s store

/-- The local key-value namespace, observationally: a map from keys to
optional string values. -/
def Store := String → Option String

/-- localStorage.getItem. -/
def getItem (st : Store) (k : String) : Option String := st k

/-- localStorage.setItem. -/
def setItem (st : Store) (k v : String) : Store :=
  fun k2 => if k2 = k then some v else st k2

/-- localStorage.clear leaves the empty namespace. -/
def emptyStore : Store := fun _ => none

/-- A value of the backup document's localStorage section: either a plain
string or a non-string JSON value carried with its serialization. -/
inductive BVal where
  | vstr : String → BVal
  | vjson : String → BVal
deriving DecidableEq, Repr

/-- The string written back on restore: a string value as is, a
non-string value as its JSON serialization
(AdminBackupRestore.tsx lines 222-232). -/
def bvalToString : BVal → String
  | BVal.vstr s => s
  | BVal.vjson j => j

/-- The metadata header of a backup document; only the version field is
consulted on restore. -/
structure BackupMeta where
  version : Option String
deriving DecidableEq, Repr

/-- A parsed backup document: optional metadata header, optional
localStorage section (none when absent or null), and an opaque
supabaseData section that restore only logs. -/
structure BackupDoc where
  metadata : Option BackupMeta
  localStorageData : Option (List (String × BVal))
  supabaseData : Option Unit
deriving DecidableEq, Repr

/-- The allow-list of local keys preserved across the restore clear
(AdminBackupRestore.tsx line 204). -/
def keysToPreserve : List String := ["current_counselor"]

/-- The values saved before the clear: each allow-listed key whose
current value is truthy (AdminBackupRestore.tsx lines 205-211). -/
def preservedData (st : Store) : List (String × String) :=
  keysToPreserve.filterMap (fun k =>
    match getItem st k with
    | some v => if v = "" then none else some (k, v)
    | none => none)

/-- Write a list of plain string pairs into the store in order. -/
def writePlain (entries : List (String × String)) (st : Store) : Store :=
  match entries with
  | [] => st
  | p :: rest => writePlain rest (setItem st p.1 p.2)

/-- Write the backup's localStorage entries into the store in order,
serializing non-string values (AdminBackupRestore.tsx lines 222-232). -/
def writeBack (entries : List (String × BVal)) (st : Store) : Store :=
  match entries with
  | [] => st
  | p :: rest => writeBack rest (setItem st p.1 (bvalToString p.2))

/-- Lookup of a key in the backup's localStorage section (first match). -/
def lookupBackup (k : String) : List (String × BVal) → Option BVal
  | [] => none
  | p :: rest => if p.1 = k then some p.2 else lookupBackup k rest

/-- The restore routine applied to a parsed backup document
(AdminBackupRestore.tsx lines 194-263): fail hard when the metadata or
its version field is missing or falsy; otherwise, when a localStorage
section is present, save the truthy values of the allow-listed keys,
clear the namespace, write the saved values back, then write every backup
entry; the supabaseData section is only logged. Returns the success flag
and the resulting store. -/
def restoreFromBackup (doc : BackupDoc) (st : Store) : Bool × Store :=
  match doc.metadata with
  | none => (false, st)
  | some md =>
    match truthy md.version with
    | none => (false, st)
    | some _ =>
      match doc.localStorageData with
      | none => (true, st)
      | some entries =>
        let withPreserved := writePlain (preservedData st) emptyStore
        (true, writeBack entries withPreserved)

/-- A non-null client handle implies local mode is off
(supabase.ts line 10). -/
theorem isLocalMode_false_of_hasSupabase (cfg : Config)
    (h : cfg.hasSupabase = true) : cfg.isLocalMode = false := by
  unfold Config.hasSupabase at h
  cases hc : cfg.isLocalMode
  · rfl
  · rw [hc] at h; simp at h

/-- Claim C1: a call to syncData (and hence to triggerManualSync) made
while the isSyncing flag is true returns false immediately, leaves the
hook state and local storage untouched, and issues no effect at all — no
identity resolution, no read of the diary collection, no remote call, no
last-sync-timestamp write — so at most one sync pass executes at a
time. -/
theorem syncData_single_flight (cfg : Config) (env : SyncEnv) (s : SyncState)
    (store : LocalStore) (h : s.isSyncing = true) :
    syncData cfg env s store = (false, s, store, []) ∧
    triggerManualSync cfg env s store = (false, s, store, []) := by
  have hmain : syncData cfg env s store = (false, s, store, []) := by
    unfold syncData
    cases hc : cfg.hasSupabase <;> cases hl : cfg.isLocalMode <;> simp [hc, hl, h]
  exact ⟨hmain, hmain⟩

/-- Witness for the single-flight theorem at a concrete syncing state. -/
theorem syncData_single_flight_witness :
    (SyncState.mk true none none none).isSyncing = true ∧
    syncData ⟨true, true, false⟩
      ⟨some ⟨"alice"⟩, ⟨[], false, false, "fresh-1"⟩, ⟨none, fun _ => true⟩, "t1", "m1"⟩
      (SyncState.mk true none none none) ⟨none, none, none⟩ =
      (false, SyncState.mk true none none none, ⟨none, none, none⟩, []) :=
  ⟨rfl, (syncData_single_flight ⟨true, true, false⟩
      ⟨some ⟨"alice"⟩, ⟨[], false, false, "fresh-1"⟩, ⟨none, fun _ => true⟩, "t1", "m1"⟩
      (SyncState.mk true none none none) ⟨none, none, none⟩ rfl).1⟩

/-- Every branch of the sync-pass tail leaves the isSyncing flag false. -/
theorem afterUser_releases (cfg : Config) (env : SyncEnv) (s0 : SyncState)
    (store : LocalStore) (userId : String) (eff : List SyncEffect) :
    ((afterUser cfg env s0 store userId eff).2.1).isSyncing = false := by
  unfold afterUser
  cases h : store.journalEntries
  · simp [h]
  · simp only [h]
    split <;> rfl

/-- Every branch of the sync-pass body leaves the isSyncing flag false. -/
theorem syncBody_releases (cfg : Config) (env : SyncEnv) (s0 : SyncState)
    (store : LocalStore) :
    ((syncBody cfg env s0 store).2.1).isSyncing = false := by
  unfold syncBody
  dsimp only
  repeat' split
  all_goals first
    | rfl
    | exact afterUser_releases _ _ _ _ _ _

/-- Claim C9: every invocation of syncData that starts with the
single-flight flag down terminates with the flag down again — the flag is
reset on the success path and on every failure path, mirroring the
finally block, so a failed pass never leaves the guard stuck. -/
theorem syncData_guard_released (cfg : Config) (env : SyncEnv) (s : SyncState)
    (store : LocalStore) (h : s.isSyncing = false) :
    ((syncData cfg env s store).2.1).isSyncing = false := by
  unfold syncData
  split
  · exact h
  · split
    · exact h
    · split
      · exact h
      · exact syncBody_releases _ _ _ _

/-- Witness for the guard-release theorem at a concrete idle state. -/
theorem syncData_guard_released_witness :
    (SyncState.mk false none none none).isSyncing = false ∧
    ((syncData ⟨true, true, false⟩
      ⟨some ⟨"alice"⟩, ⟨[], false, false, "fresh-1"⟩, ⟨none, fun _ => true⟩, "t1", "m1"⟩
      (SyncState.mk false none none none) ⟨none, none, none⟩).2.1).isSyncing = false :=
  ⟨rfl, syncData_guard_released ⟨true, true, false⟩
      ⟨some ⟨"alice"⟩, ⟨[], false, false, "fresh-1"⟩, ⟨none, fun _ => true⟩, "t1", "m1"⟩
      (SyncState.mk false none none none) ⟨none, none, none⟩ rfl⟩

/-- Claim C10: a syncDiaries call with an empty user id, the sentinel
user id, or local-only mode active returns success = false with an error
message and issues no remote upsert, so local records are never written
remotely under the sentinel identity. -/
theorem syncDiaries_sentinel_guard (cfg : Config) (oracle : RemoteOracle)
    (now nowMs userId : String) (diaries : List LocalEntry)
    (h : userId = "" ∨ userId = "local-user-id" ∨ cfg.isLocalMode = true) :
    (syncDiaries cfg oracle now nowMs userId diaries).1.success = false ∧
    (syncDiaries cfg oracle now nowMs userId diaries).1.error ≠ none ∧
    (syncDiaries cfg oracle now nowMs userId diaries).2 = [] := by
  unfold syncDiaries
  cases hc : cfg.hasSupabase
  · simp
  · have hl : cfg.isLocalMode = false := isLocalMode_false_of_hasSupabase cfg hc
    rcases h with h | h | h
    · simp [h]
    · simp [h]
    · rw [h] at hl; exact absurd hl (by simp)

/-- Witness for the sentinel guard theorem at the sentinel user id. -/
theorem syncDiaries_sentinel_guard_witness :
    (("local-user-id" : String) = "" ∨ ("local-user-id" : String) = "local-user-id" ∨
      (Config.mk true true false).isLocalMode = true) ∧
    ((syncDiaries ⟨true, true, false⟩ ⟨none, fun _ => true⟩ "t1" "m1" "local-user-id" []).1.success = false ∧
     (syncDiaries ⟨true, true, false⟩ ⟨none, fun _ => true⟩ "t1" "m1" "local-user-id" []).1.error ≠ none ∧
     (syncDiaries ⟨true, true, false⟩ ⟨none, fun _ => true⟩ "t1" "m1" "local-user-id" []).2 = []) :=
  ⟨Or.inr (Or.inl rfl), syncDiaries_sentinel_guard ⟨true, true, false⟩
    ⟨none, fun _ => true⟩ "t1" "m1" "local-user-id" [] (Or.inr (Or.inl rfl))⟩

/-- Claim C5 counterexample: with local-only mode set (credentials
present), the client handle is null, so createOrGetUser returns absence —
not the sentinel row — and getUserId does not return the sentinel id;
the in-function sentinel branches are unreachable. -/
theorem identity_localmode_counterexample :
    (createOrGetUser ⟨true, true, true⟩ ⟨[], false, false, "fresh-1"⟩ "alice").1 = none ∧
    ¬ (createOrGetUser ⟨true, true, true⟩ ⟨[], false, false, "fresh-1"⟩ "alice").1 =
        some { id := "local-user-id", line_username := "alice" } ∧
    (getUserId ⟨true, true, true⟩ ⟨[], false, false, "fresh-1"⟩ "alice").1 = none ∧
    ¬ (getUserId ⟨true, true, true⟩ ⟨[], false, false, "fresh-1"⟩ "alice").1 =
        some "local-user-id" := by
  refine ⟨rfl, by decide, rfl, by decide⟩

/-- Claim C5 amended: whenever the client handle is null — local-only
mode set or the endpoint/credential pair absent — createOrGetUser and
getUserId return absence (null) without issuing any remote call, rather
than raising or returning the sentinel. -/
theorem identity_offline_absence (cfg : Config) (env : UserEnv) (uname : String)
    (h : cfg.hasSupabase = false) :
    createOrGetUser cfg env uname = (none, env, []) ∧
    getUserId cfg env uname = (none, []) := by
  unfold createOrGetUser getUserId
  simp [h]

/-- Witness for the offline-absence theorem with local mode set. -/
theorem identity_offline_absence_witness :
    (Config.mk true true true).hasSupabase = false ∧
    (createOrGetUser ⟨true, true, true⟩ ⟨[], false, false, "fresh-1"⟩ "alice" =
      (none, ⟨[], false, false, "fresh-1"⟩, []) ∧
     getUserId ⟨true, true, true⟩ ⟨[], false, false, "fresh-1"⟩ "alice" = (none, [])) :=
  ⟨rfl, identity_offline_absence ⟨true, true, true⟩ ⟨[], false, false, "fresh-1"⟩ "alice" rfl⟩

/-- Claim C7: restoring from a parsed document whose metadata field is
absent, or whose metadata lacks a version field, reports failure and
leaves every key of the local namespace holding exactly the value it held
before, because the version check precedes the clear and all writes. -/
theorem restore_missing_version_noop (doc : BackupDoc) (st : Store)
    (h : doc.metadata = none ∨ ∃ md, doc.metadata = some md ∧ md.version = none) :
    restoreFromBackup doc st = (false, st) ∧
    ∀ k, getItem (restoreFromBackup doc st).2 k = getItem st k := by
  have hmain : restoreFromBackup doc st = (false, st) := by
    unfold restoreFromBackup
    rcases h with h | ⟨md, h1, h2⟩
    · rw [h]
    · rw [h1]
      simp [h2, truthy]
  exact ⟨hmain, fun k => by rw [hmain]⟩

/-- Witness for the restore-validation theorem: a document with a
localStorage section but no metadata, against a nonempty store. -/
theorem restore_missing_version_noop_witness :
    ((BackupDoc.mk none (some [("journalEntries", BVal.vjson "[]")]) none).metadata = none ∨
      ∃ md, (BackupDoc.mk none (some [("journalEntries", BVal.vjson "[]")]) none).metadata =
        some md ∧ md.version = none) ∧
    (restoreFromBackup (BackupDoc.mk none (some [("journalEntries", BVal.vjson "[]")]) none)
        (setItem emptyStore "journalEntries" "old") =
      (false, setItem emptyStore "journalEntries" "old") ∧
     ∀ k, getItem (restoreFromBackup
        (BackupDoc.mk none (some [("journalEntries", BVal.vjson "[]")]) none)
        (setItem emptyStore "journalEntries" "old")).2 k =
       getItem (setItem emptyStore "journalEntries" "old") k) :=
  ⟨Or.inl rfl, restore_missing_version_noop
    (BackupDoc.mk none (some [("journalEntries", BVal.vjson "[]")]) none)
    (setItem emptyStore "journalEntries" "old") (Or.inl rfl)⟩

/-- Claim C3: for every locally stored diary record, the useAutoSync
normalization yields both score spellings present with the same numeric
value; that value is the snake_case field when it is a number, 50 when
the snake_case field is null, the camelCase field when the snake_case
field is undefined and the camelCase field is a number, and 50 when both
spellings are undefined or null. -/
theorem normalizeEntry_scores (now : String) (e : LocalEntry) :
    ∃ v w : Int,
      (normalizeEntry now e).self_esteem_score = JsNum.num v ∧
      (normalizeEntry now e).selfEsteemScore = JsNum.num v ∧
      (normalizeEntry now e).worthlessness_score = JsNum.num w ∧
      (normalizeEntry now e).worthlessnessScore = JsNum.num w ∧
      (∀ a : Int, e.self_esteem_score = JsNum.num a → v = a) ∧
      (e.self_esteem_score = JsNum.null → v = 50) ∧
      (e.self_esteem_score = JsNum.undef →
        ∀ a : Int, e.selfEsteemScore = JsNum.num a → v = a) ∧
      ((e.self_esteem_score = JsNum.undef ∨ e.self_esteem_score = JsNum.null) →
        (e.selfEsteemScore = JsNum.undef ∨ e.selfEsteemScore = JsNum.null) → v = 50) ∧
      (∀ a : Int, e.worthlessness_score = JsNum.num a → w = a) ∧
      (e.worthlessness_score = JsNum.null → w = 50) ∧
      (e.worthlessness_score = JsNum.undef →
        ∀ a : Int, e.worthlessnessScore = JsNum.num a → w = a) ∧
      ((e.worthlessness_score = JsNum.undef ∨ e.worthlessness_score = JsNum.null) →
        (e.worthlessnessScore = JsNum.undef ∨ e.worthlessnessScore = JsNum.null) → w = 50) := by
  refine ⟨normalizeScore e.self_esteem_score e.selfEsteemScore,
          normalizeScore e.worthlessness_score e.worthlessnessScore,
          rfl, rfl, rfl, rfl, ?_, ?_, ?_, ?_, ?_, ?_, ?_, ?_⟩
  · intro a ha; simp [normalizeScore, mergedScore, ha]
  · intro hn; simp [normalizeScore, mergedScore, hn]
  · intro hu a ha; simp [normalizeScore, mergedScore, hu, ha]
  · rintro (h1 | h1) (h2 | h2) <;> simp [normalizeScore, mergedScore, h1, h2]
  · intro a ha; simp [normalizeScore, mergedScore, ha]
  · intro hn; simp [normalizeScore, mergedScore, hn]
  · intro hu a ha; simp [normalizeScore, mergedScore, hu, ha]
  · rintro (h1 | h1) (h2 | h2) <;> simp [normalizeScore, mergedScore, h1, h2]

/-- Claim C2: when the bulk upsert of the formatted batch fails, every
record of the batch is retried with an individual upsert, in order; the
result is success = true carrying the human-readable success count when
at least one per-record upsert succeeds — equal to the batch size when
every one succeeds — and success = false with an error otherwise. -/
theorem syncDiaries_bulk_fallback (cfg : Config) (oracle : RemoteOracle)
    (now nowMs userId : String) (diaries : List LocalEntry) (msg : String)
    (hs : cfg.hasSupabase = true) (hu1 : userId ≠ "") (hu2 : userId ≠ "local-user-id")
    (hb : oracle.bulkError = some msg) :
    (syncDiaries cfg oracle now nowMs userId diaries).2 =
      DiaryCall.bulkUpsert (diaries.map (formatDiary userId now nowMs)) ::
        (diaries.map (formatDiary userId now nowMs)).map DiaryCall.singleUpsert ∧
    (0 < ((diaries.map (formatDiary userId now nowMs)).filter oracle.singleOk).length →
      (syncDiaries cfg oracle now nowMs userId diaries).1.success = true ∧
      (syncDiaries cfg oracle now nowMs userId diaries).1.message =
        some (countMsg
          ((diaries.map (formatDiary userId now nowMs)).filter oracle.singleOk).length
          diaries.length)) ∧
    ((diaries ≠ [] ∧
        ∀ r ∈ diaries.map (formatDiary userId now nowMs), oracle.singleOk r = true) →
      (syncDiaries cfg oracle now nowMs userId diaries).1.success = true ∧
      (syncDiaries cfg oracle now nowMs userId diaries).1.message =
        some (countMsg diaries.length diaries.length)) ∧
    (((diaries.map (formatDiary userId now nowMs)).filter oracle.singleOk).length = 0 →
      (syncDiaries cfg oracle now nowMs userId diaries).1.success = false ∧
      (syncDiaries cfg oracle now nowMs userId diaries).1.error ≠ none) := by
  have hl := isLocalMode_false_of_hasSupabase cfg hs
  have heq : syncDiaries cfg oracle now nowMs userId diaries =
      (if 0 < ((diaries.map (formatDiary userId now nowMs)).filter oracle.singleOk).length then
        ({ success := true, error := none,
           message := some (countMsg
             ((diaries.map (formatDiary userId now nowMs)).filter oracle.singleOk).length
             (diaries.map (formatDiary userId now nowMs)).length) },
         DiaryCall.bulkUpsert (diaries.map (formatDiary userId now nowMs)) ::
           (diaries.map (formatDiary userId now nowMs)).map DiaryCall.singleUpsert)
      else
        ({ success := false, error := some ("同期エラー: " ++ msg), message := none },
         DiaryCall.bulkUpsert (diaries.map (formatDiary userId now nowMs)) ::
           (diaries.map (formatDiary userId now nowMs)).map DiaryCall.singleUpsert)) := by
    unfold syncDiaries
    rw [hb, if_neg (by simp [hs]), if_neg (by simp [hl, hu1, hu2])]
  refine ⟨?_, ?_, ?_, ?_⟩
  · rw [heq]; split <;> rfl
  · intro hk
    rw [heq, if_pos hk]
    exact ⟨rfl, by rw [List.length_map]⟩
  · rintro ⟨hne, hall⟩
    have hfe : (diaries.map (formatDiary userId now nowMs)).filter oracle.singleOk =
        diaries.map (formatDiary userId now nowMs) := List.filter_eq_self.mpr hall
    have hk : ((diaries.map (formatDiary userId now nowMs)).filter oracle.singleOk).length =
        diaries.length := by rw [hfe, List.length_map]
    have hkpos : 0 < ((diaries.map (formatDiary userId now nowMs)).filter
        oracle.singleOk).length := by
      rw [hk]; exact List.length_pos.mpr hne
    rw [heq, if_pos hkpos]
    exact ⟨rfl, by rw [hk, List.length_map]⟩
  · intro hk0
    rw [heq, if_neg (by simp [hk0])]
    exact ⟨rfl, by simp⟩

/-- Witness for the bulk-failure fallback theorem: a one-record batch
whose bulk upsert fails and whose individual upsert succeeds. -/
theorem syncDiaries_bulk_fallback_witness :
    (Config.mk true true false).hasSupabase = true ∧
    ("uid-9" : String) ≠ "" ∧ ("uid-9" : String) ≠ "local-user-id" ∧
    (RemoteOracle.mk (some "boom") (fun _ => true)).bulkError = some "boom" ∧
    ((syncDiaries ⟨true, true, false⟩ ⟨some "boom", fun _ => true⟩ "t1" "m1" "uid-9"
        [⟨"e1", "2025-01-01", "joy", "ev", "re", JsNum.num 10, JsNum.undef, JsNum.undef,
          JsNum.undef, some "t0", none, false, none, none, none⟩]).2 =
      DiaryCall.bulkUpsert ([⟨"e1", "2025-01-01", "joy", "ev", "re", JsNum.num 10, JsNum.undef,
          JsNum.undef, JsNum.undef, some "t0", none, false, none, none, none⟩].map
          (formatDiary "uid-9" "t1" "m1")) ::
        ([⟨"e1", "2025-01-01", "joy", "ev", "re", JsNum.num 10, JsNum.undef, JsNum.undef,
          JsNum.undef, some "t0", none, false, none, none, none⟩].map
          (formatDiary "uid-9" "t1" "m1")).map DiaryCall.singleUpsert ∧
     (0 < (([⟨"e1", "2025-01-01", "joy", "ev", "re", JsNum.num 10, JsNum.undef, JsNum.undef,
          JsNum.undef, some "t0", none, false, none, none, none⟩].map
          (formatDiary "uid-9" "t1" "m1")).filter
            (RemoteOracle.mk (some "boom") (fun _ => true)).singleOk).length →
       (syncDiaries ⟨true, true, false⟩ ⟨some "boom", fun _ => true⟩ "t1" "m1" "uid-9"
          [⟨"e1", "2025-01-01", "joy", "ev", "re", JsNum.num 10, JsNum.undef, JsNum.undef,
            JsNum.undef, some "t0", none, false, none, none, none⟩]).1.success = true ∧
       (syncDiaries ⟨true, true, false⟩ ⟨some "boom", fun _ => true⟩ "t1" "m1" "uid-9"
          [⟨"e1", "2025-01-01", "joy", "ev", "re", JsNum.num 10, JsNum.undef, JsNum.undef,
            JsNum.undef, some "t0", none, false, none, none, none⟩]).1.message =
         some (countMsg (([⟨"e1", "2025-01-01", "joy", "ev", "re", JsNum.num 10, JsNum.undef,
            JsNum.undef, JsNum.undef, some "t0", none, false, none, none, none⟩].map
            (formatDiary "uid-9" "t1" "m1")).filter
              (RemoteOracle.mk (some "boom") (fun _ => true)).singleOk).length 1)) ∧
     (([⟨"e1", "2025-01-01", "joy", "ev", "re", JsNum.num 10, JsNum.undef, JsNum.undef,
          JsNum.undef, some "t0", none, false, none, none, none⟩] ≠ ([] : List LocalEntry) ∧
        ∀ r ∈ [⟨"e1", "2025-01-01", "joy", "ev", "re", JsNum.num 10, JsNum.undef, JsNum.undef,
          JsNum.undef, some "t0", none, false, none, none, none⟩].map
            (formatDiary "uid-9" "t1" "m1"),
          (RemoteOracle.mk (some "boom") (fun _ => true)).singleOk r = true) →
       (syncDiaries ⟨true, true, false⟩ ⟨some "boom", fun _ => true⟩ "t1" "m1" "uid-9"
          [⟨"e1", "2025-01-01", "joy", "ev", "re", JsNum.num 10, JsNum.undef, JsNum.undef,
            JsNum.undef, some "t0", none, false, none, none, none⟩]).1.success = true ∧
       (syncDiaries ⟨true, true, false⟩ ⟨some "boom", fun _ => true⟩ "t1" "m1" "uid-9"
          [⟨"e1", "2025-01-01", "joy", "ev", "re", JsNum.num 10, JsNum.undef, JsNum.undef,
            JsNum.undef, some "t0", none, false, none, none, none⟩]).1.message =
         some (countMsg 1 1)) ∧
     ((([⟨"e1", "2025-01-01", "joy", "ev", "re", JsNum.num 10, JsNum.undef, JsNum.undef,
          JsNum.undef, some "t0", none, false, none, none, none⟩].map
          (formatDiary "uid-9" "t1" "m1")).filter
            (RemoteOracle.mk (some "boom") (fun _ => true)).singleOk).length = 0 →
       (syncDiaries ⟨true, true, false⟩ ⟨some "boom", fun _ => true⟩ "t1" "m1" "uid-9"
          [⟨"e1", "2025-01-01", "joy", "ev", "re", JsNum.num 10, JsNum.undef, JsNum.undef,
            JsNum.undef, some "t0", none, false, none, none, none⟩]).1.success = false ∧
       (syncDiaries ⟨true, true, false⟩ ⟨some "boom", fun _ => true⟩ "t1" "m1" "uid-9"
          [⟨"e1", "2025-01-01", "joy", "ev", "re", JsNum.num 10, JsNum.undef, JsNum.undef,
            JsNum.undef, some "t0", none, false, none, none, none⟩]).1.error ≠ none)) :=
  ⟨rfl, by decide, by decide, rfl,
   syncDiaries_bulk_fallback ⟨true, true, false⟩ ⟨some "boom", fun _ => true⟩ "t1" "m1" "uid-9"
     [⟨"e1", "2025-01-01", "joy", "ev", "re", JsNum.num 10, JsNum.undef, JsNum.undef,
       JsNum.undef, some "t0", none, false, none, none, none⟩] "boom"
     rfl (by decide) (by decide) rfl⟩

/-- Appending a row for a username not yet present makes the lookup find
exactly that row. -/
theorem findUser_append_eq (uname : String) (tbl : List UserRow) (row : UserRow)
    (h : findUser uname tbl = none) (hrow : row.line_username = uname) :
    findUser uname (tbl ++ [row]) = some row := by
  induction tbl with
  | nil => simp [findUser, hrow]
  | cons r rest ih =>
    by_cases hc : r.line_username = uname
    · simp [findUser, hc] at h
    · simp only [List.cons_append, findUser, hc, if_false] at h ⊢
      exact ih h

/-- Claim C6: under a configured backend and fault-free round trips, two
successive createOrGetUser calls with the same username return the same
row, the second call leaves the remote table unchanged and issues no
insert; and on a lookup error whose code is not the no-row code the call
returns absence without attempting creation. -/
theorem createOrGetUser_idempotent (cfg : Config) (env : UserEnv) (uname : String)
    (hs : cfg.hasSupabase = true) (h2 : env.searchFault = false)
    (h3 : env.insertFault = false) :
    (∃ row : UserRow,
      (createOrGetUser cfg env uname).1 = some row ∧
      (createOrGetUser cfg (createOrGetUser cfg env uname).2.1 uname).1 = some row ∧
      (createOrGetUser cfg (createOrGetUser cfg env uname).2.1 uname).2.1 =
        (createOrGetUser cfg env uname).2.1 ∧
      UserCall.insert uname ∉
        (createOrGetUser cfg (createOrGetUser cfg env uname).2.1 uname).2.2) ∧
    (∀ env2 : UserEnv, env2.searchFault = true →
      (createOrGetUser cfg env2 uname).1 = none ∧
      (createOrGetUser cfg env2 uname).2.1 = env2 ∧
      UserCall.insert uname ∉ (createOrGetUser cfg env2 uname).2.2) := by
  have hl := isLocalMode_false_of_hasSupabase cfg hs
  constructor
  · cases hf : findUser uname env.table with
    | some row =>
      have h1st : createOrGetUser cfg env uname = (some row, env, [UserCall.search uname]) := by
        simp [createOrGetUser, hs, hl, h2, hf]
      refine ⟨row, by rw [h1st], ?_, ?_, ?_⟩ <;> rw [h1st] <;>
        simp [createOrGetUser, hs, hl, h2, hf]
    | none =>
      have h1st : createOrGetUser cfg env uname =
          (some ⟨env.freshId, uname⟩,
           { env with table := env.table ++ [⟨env.freshId, uname⟩] },
           [UserCall.search uname, UserCall.insert uname]) := by
        simp [createOrGetUser, hs, hl, h2, hf, insertUser, h3]
      have hfind2 : findUser uname (env.table ++ [(⟨env.freshId, uname⟩ : UserRow)]) =
          some ⟨env.freshId, uname⟩ :=
        findUser_append_eq uname env.table ⟨env.freshId, uname⟩ hf rfl
      refine ⟨⟨env.freshId, uname⟩, by rw [h1st], ?_, ?_, ?_⟩ <;> rw [h1st] <;>
        simp [createOrGetUser, hs, hl, h2, hfind2]
  · intro env2 hf2
    refine ⟨?_, ?_, ?_⟩ <;> simp [createOrGetUser, hs, hl, hf2]

/-- Witness for the idempotent-creation theorem starting from an empty
remote table. -/
theorem createOrGetUser_idempotent_witness :
    (Config.mk true true false).hasSupabase = true ∧
    (UserEnv.mk [] false false "fresh-1").searchFault = false ∧
    (UserEnv.mk [] false false "fresh-1").insertFault = false ∧
    ((∃ row : UserRow,
      (createOrGetUser ⟨true, true, false⟩ ⟨[], false, false, "fresh-1"⟩ "alice").1 = some row ∧
      (createOrGetUser ⟨true, true, false⟩
        (createOrGetUser ⟨true, true, false⟩ ⟨[], false, false, "fresh-1"⟩ "alice").2.1
        "alice").1 = some row ∧
      (createOrGetUser ⟨true, true, false⟩
        (createOrGetUser ⟨true, true, false⟩ ⟨[], false, false, "fresh-1"⟩ "alice").2.1
        "alice").2.1 =
        (createOrGetUser ⟨true, true, false⟩ ⟨[], false, false, "fresh-1"⟩ "alice").2.1 ∧
      UserCall.insert "alice" ∉
        (createOrGetUser ⟨true, true, false⟩
          (createOrGetUser ⟨true, true, false⟩ ⟨[], false, false, "fresh-1"⟩ "alice").2.1
          "alice").2.2) ∧
     (∀ env2 : UserEnv, env2.searchFault = true →
      (createOrGetUser ⟨true, true, false⟩ env2 "alice").1 = none ∧
      (createOrGetUser ⟨true, true, false⟩ env2 "alice").2.1 = env2 ∧
      UserCall.insert "alice" ∉ (createOrGetUser ⟨true, true, false⟩ env2 "alice").2.2)) :=
  ⟨rfl, rfl, rfl,
   createOrGetUser_idempotent ⟨true, true, false⟩ ⟨[], false, false, "fresh-1"⟩ "alice"
     rfl rfl rfl⟩

/-- A key absent from the backup section is not found by the lookup. -/
theorem lookupBackup_none_of_not_mem (k : String) (l : List (String × BVal))
    (h : ∀ p ∈ l, p.1 ≠ k) : lookupBackup k l = none := by
  induction l with
  | nil => rfl
  | cons p rest ih =>
    simp only [lookupBackup]
    rw [if_neg (h p (List.mem_cons_self p rest))]
    exact ih (fun q hq => h q (List.mem_cons_of_mem p hq))

/-- Writing back a backup section with pairwise-distinct keys gives a
store that maps each backup key to its serialized value and every other
key to its prior value. -/
theorem writeBack_get (entries : List (String × BVal)) (st : Store) (k : String)
    (hnd : (entries.map Prod.fst).Nodup) :
    writeBack entries st k =
      (match lookupBackup k entries with
       | some b => some (bvalToString b)
       | none => st k) := by
  induction entries generalizing st with
  | nil => rfl
  | cons p rest ih =>
    have hnd' : (rest.map Prod.fst).Nodup := (List.nodup_cons.mp hnd).2
    have hnotmem : p.1 ∉ rest.map Prod.fst := (List.nodup_cons.mp hnd).1
    by_cases hc : p.1 = k
    · subst hc
      have hrest : lookupBackup p.1 rest = none := by
        apply lookupBackup_none_of_not_mem
        intro q hq hqe
        exact hnotmem (hqe ▸ List.mem_map_of_mem Prod.fst hq)
      rw [writeBack, ih _ hnd']
      simp [lookupBackup, hrest, setItem]
    · rw [writeBack, ih _ hnd']
      have hck : ¬(k = p.1) := fun h => hc h.symm
      simp only [lookupBackup, if_neg hc]
      cases lookupBackup k rest
      · simp [setItem, hck]
      · simp

/-- A successful restore with a localStorage section present rebuilds the
namespace from the preserved allow-list values and the backup entries. -/
theorem restore_success_eq (doc : BackupDoc) (st : Store) (md : BackupMeta)
    (entries : List (String × BVal)) (v : String)
    (h1 : doc.metadata = some md) (h2 : md.version = some v) (h3 : v ≠ "")
    (h4 : doc.localStorageData = some entries) :
    restoreFromBackup doc st =
      (true, writeBack entries (writePlain (preservedData st) emptyStore)) := by
  unfold restoreFromBackup
  rw [h1]
  simp [h2, truthy, h3, h4]

/-- Claim C8: a successful restore from a backup whose localStorage
section lacks the current_counselor key preserves that key's (truthy)
pre-restore value across the namespace clear, while every other key ends
up holding exactly the backup's serialized value for it — in particular
every other pre-existing key not in the backup is cleared. -/
theorem restore_preserves_marker (doc : BackupDoc) (st : Store) (md : BackupMeta)
    (entries : List (String × BVal)) (v x : String)
    (h1 : doc.metadata = some md) (h2 : md.version = some v) (h3 : v ≠ "")
    (h4 : doc.localStorageData = some entries)
    (h5 : ∀ p ∈ entries, p.1 ≠ "current_counselor")
    (h6 : getItem st "current_counselor" = some x) (h7 : x ≠ "")
    (h8 : (entries.map Prod.fst).Nodup) :
    (restoreFromBackup doc st).1 = true ∧
    getItem (restoreFromBackup doc st).2 "current_counselor" = some x ∧
    (∀ k, k ≠ "current_counselor" →
      getItem (restoreFromBackup doc st).2 k =
        Option.map bvalToString (lookupBackup k entries)) := by
  have heq := restore_success_eq doc st md entries v h1 h2 h3 h4
  have hpres : preservedData st = [("current_counselor", x)] := by
    unfold preservedData keysToPreserve
    simp [h6, h7]
  have hwp : writePlain (preservedData st) emptyStore =
      setItem emptyStore "current_counselor" x := by
    rw [hpres]; rfl
  refine ⟨by rw [heq], ?_, ?_⟩
  · show getItem (restoreFromBackup doc st).2 "current_counselor" = some x
    rw [heq]
    show writeBack entries (writePlain (preservedData st) emptyStore) "current_counselor" = some x
    rw [hwp, writeBack_get entries _ _ h8, lookupBackup_none_of_not_mem _ _ h5]
    simp [setItem]
  · intro k hk
    rw [heq]
    show writeBack entries (writePlain (preservedData st) emptyStore) k = _
    rw [hwp, writeBack_get entries _ _ h8]
    cases hlk : lookupBackup k entries
    · simp [setItem, emptyStore, hk]
    · simp

/-- Witness for the restore frame-condition theorem: a valid backup
holding one key, against a store holding the counselor marker. -/
theorem restore_preserves_marker_witness :
    (BackupDoc.mk (some (BackupMeta.mk (some "1.0")))
        (some [("journalEntries", BVal.vjson "[]")]) none).metadata =
      some (BackupMeta.mk (some "1.0")) ∧
    (BackupMeta.mk (some "1.0")).version = some "1.0" ∧
    ("1.0" : String) ≠ "" ∧
    (∀ p ∈ [("journalEntries", BVal.vjson "[]")], p.1 ≠ "current_counselor") ∧
    getItem (setItem emptyStore "current_counselor" "admin-1") "current_counselor" =
      some "admin-1" ∧
    ((restoreFromBackup
        (BackupDoc.mk (some (BackupMeta.mk (some "1.0")))
          (some [("journalEntries", BVal.vjson "[]")]) none)
        (setItem emptyStore "current_counselor" "admin-1")).1 = true ∧
     getItem (restoreFromBackup
        (BackupDoc.mk (some (BackupMeta.mk (some "1.0")))
          (some [("journalEntries", BVal.vjson "[]")]) none)
        (setItem emptyStore "current_counselor" "admin-1")).2 "current_counselor" =
       some "admin-1" ∧
     (∀ k, k ≠ "current_counselor" →
       getItem (restoreFromBackup
          (BackupDoc.mk (some (BackupMeta.mk (some "1.0")))
            (some [("journalEntries", BVal.vjson "[]")]) none)
          (setItem emptyStore "current_counselor" "admin-1")).2 k =
         Option.map bvalToString (lookupBackup k [("journalEntries", BVal.vjson "[]")]))) :=
  ⟨rfl, rfl, by decide, by decide, by decide,
   restore_preserves_marker
     (BackupDoc.mk (some (BackupMeta.mk (some "1.0")))
       (some [("journalEntries", BVal.vjson "[]")]) none)
     (setItem emptyStore "current_counselor" "admin-1")
     (BackupMeta.mk (some "1.0")) [("journalEntries", BVal.vjson "[]")] "1.0" "admin-1"
     rfl rfl (by decide) rfl (by decide) (by decide) (by decide) (by decide)⟩

/-- Claim C4 counterexample: a sync pass that finds the local diary
collection present but empty (stored as an empty array) still issues a
remote call — the zero-row bulk upsert via diaryService.syncDiaries —
contradicting the claim that a pass finding zero local diary records
issues no remote write. -/
theorem syncData_empty_collection_counterexample :
    (syncData ⟨true, true, false⟩
        ⟨some ⟨"alice"⟩, ⟨[], false, false, "fresh-1"⟩, ⟨none, fun _ => true⟩, "t1", "m1"⟩
        ⟨false, none, none, some ⟨"uid-9", "alice"⟩⟩
        ⟨some [], none, none⟩).1 = true ∧
    SyncEffect.diariesCall "uid-9" [] ∈
      (syncData ⟨true, true, false⟩
        ⟨some ⟨"alice"⟩, ⟨[], false, false, "fresh-1"⟩, ⟨none, fun _ => true⟩, "t1", "m1"⟩
        ⟨false, none, none, some ⟨"uid-9", "alice"⟩⟩
        ⟨some [], none, none⟩).2.2.2 ∧
    ((syncData ⟨true, true, false⟩
        ⟨some ⟨"alice"⟩, ⟨[], false, false, "fresh-1"⟩, ⟨none, fun _ => true⟩, "t1", "m1"⟩
        ⟨false, none, none, some ⟨"uid-9", "alice"⟩⟩
        ⟨some [], none, none⟩).2.2.2).any isRemoteEffect = true := by
  refine ⟨rfl, by decide, rfl⟩

/-- Claim C4 amended: a sync pass that passes the guards, has an already
resolved non-sentinel user id, and finds the local diary collection
absent returns true, records the new last-sync timestamp both in hook
state and in local storage, and issues no remote call of any kind. -/
theorem syncData_absent_collection (cfg : Config) (env : SyncEnv) (s : SyncState)
    (store : LocalStore) (u : String) (cu : UserRow)
    (h1 : cfg.hasSupabase = true)
    (h2 : s.isSyncing = false)
    (h3 : truthy (jsOrStr (env.deviceUser.map DeviceUser.lineUsername)
            store.lineUsernameKey) = some u)
    (h4 : s.currentUser = some cu) (h5 : cu.id ≠ "") (h6 : cu.id ≠ "local-user-id")
    (h7 : store.journalEntries = none) :
    (syncData cfg env s store).1 = true ∧
    ((syncData cfg env s store).2.1).lastSyncTime = some env.now ∧
    ((syncData cfg env s store).2.2.1).last_sync_time = some env.now ∧
    SyncEffect.writeStorage "last_sync_time" env.now ∈ (syncData cfg env s store).2.2.2 ∧
    (∀ e ∈ (syncData cfg env s store).2.2.2, isRemoteEffect e = false) := by
  have hl := isLocalMode_false_of_hasSupabase cfg h1
  have hsd : syncData cfg env s store =
      syncBody cfg env { s with isSyncing := true, error := none } store := by
    unfold syncData
    rw [if_neg (by simp [h1]), if_neg (by simp [hl]), if_neg (by simp [h2])]
  have hbody : syncBody cfg env { s with isSyncing := true, error := none } store =
      afterUser cfg env { s with isSyncing := true, error := none } store cu.id
        (if truthy (env.deviceUser.map DeviceUser.lineUsername) = none
         then [SyncEffect.readStorage "line-username"] else []) := by
    unfold syncBody
    simp [h3, h4, h5, h6]
  have hafter : afterUser cfg env { s with isSyncing := true, error := none } store cu.id
      (if truthy (env.deviceUser.map DeviceUser.lineUsername) = none
       then [SyncEffect.readStorage "line-username"] else []) =
      (true,
       { s with isSyncing := false, error := none, lastSyncTime := some env.now },
       { store with last_sync_time := some env.now },
       ((if truthy (env.deviceUser.map DeviceUser.lineUsername) = none
         then [SyncEffect.readStorage "line-username"] else []) ++
        [SyncEffect.readStorage "journalEntries"]) ++
       [SyncEffect.writeStorage "last_sync_time" env.now]) := by
    unfold afterUser
    rw [h7]
  rw [hsd, hbody, hafter]
  refine ⟨rfl, rfl, rfl, by simp, ?_⟩
  intro e he
  simp only [List.mem_append, List.mem_singleton] at he
  rcases he with (he | he) | he
  · by_cases hd : truthy (env.deviceUser.map DeviceUser.lineUsername) = none
    · rw [if_pos hd] at he
      simp only [List.mem_singleton] at he
      rw [he]; rfl
    · rw [if_neg hd] at he
      simp at he
  · rw [he]; rfl
  · rw [he]; rfl

/-- Witness for the absent-collection theorem at a concrete idle state
with a resolved user and no stored diary collection. -/
theorem syncData_absent_collection_witness :
    (Config.mk true true false).hasSupabase = true ∧
    (SyncState.mk false none none (some ⟨"uid-9", "alice"⟩)).isSyncing = false ∧
    truthy (jsOrStr ((some (DeviceUser.mk "alice")).map DeviceUser.lineUsername)
      (LocalStore.mk none none none).lineUsernameKey) = some "alice" ∧
    (LocalStore.mk none none none).journalEntries = none ∧
    ((syncData ⟨true, true, false⟩
        ⟨some ⟨"alice"⟩, ⟨[], false, false, "fresh-1"⟩, ⟨none, fun _ => true⟩, "t1", "m1"⟩
        ⟨false, none, none, some ⟨"uid-9", "alice"⟩⟩ ⟨none, none, none⟩).1 = true ∧
     ((syncData ⟨true, true, false⟩
        ⟨some ⟨"alice"⟩, ⟨[], false, false, "fresh-1"⟩, ⟨none, fun _ => true⟩, "t1", "m1"⟩
        ⟨false, none, none, some ⟨"uid-9", "alice"⟩⟩ ⟨none, none, none⟩).2.1).lastSyncTime =
       some "t1" ∧
     ((syncData ⟨true, true, false⟩
        ⟨some ⟨"alice"⟩, ⟨[], false, false, "fresh-1"⟩, ⟨none, fun _ => true⟩, "t1", "m1"⟩
        ⟨false, none, none, some ⟨"uid-9", "alice"⟩⟩ ⟨none, none, none⟩).2.2.1).last_sync_time =
       some "t1" ∧
     SyncEffect.writeStorage "last_sync_time" "t1" ∈
       (syncData ⟨true, true, false⟩
        ⟨some ⟨"alice"⟩, ⟨[], false, false, "fresh-1"⟩, ⟨none, fun _ => true⟩, "t1", "m1"⟩
        ⟨false, none, none, some ⟨"uid-9", "alice"⟩⟩ ⟨none, none, none⟩).2.2.2 ∧
     (∀ e ∈ (syncData ⟨true, true, false⟩
        ⟨some ⟨"alice"⟩, ⟨[], false, false, "fresh-1"⟩, ⟨none, fun _ => true⟩, "t1", "m1"⟩
        ⟨false, none, none, some ⟨"uid-9", "alice"⟩⟩ ⟨none, none, none⟩).2.2.2,
        isRemoteEffect e = false)) :=
  ⟨rfl, rfl, by decide, rfl,
   syncData_absent_collection ⟨true, true, false⟩
     ⟨some ⟨"alice"⟩, ⟨[], false, false, "fresh-1"⟩, ⟨none, fun _ => true⟩, "t1", "m1"⟩
     ⟨false, none, none, some ⟨"uid-9", "alice"⟩⟩ ⟨none, none, none⟩ "alice"
     ⟨"uid-9", "alice"⟩ rfl rfl (by decide) rfl (by decide) (by decide) rfl⟩
